import Mathlib

/-!
Shallow embedding of the towerjumps analysis pipeline.

The model follows `src/towerjumps/utils.py` and `src/towerjumps/analyzer.py`.
Timestamps are UTC seconds as naturals; all float arithmetic of the source is
modelled over the exact rationals.  The haversine distance itself is floating
point trigonometry, so it is kept as an uninterpreted parameter
`dist : Sample → Sample → ℚ`; every statement below holds for an arbitrary
distance function, hence in particular for the haversine one.
-/

namespace TowerJumps

/-- One input row of the location dataframe.  Latitude, longitude and state may
be missing (pandas NaN is modelled as `none`).  The remaining columns of the
source dataframe (page, item, local time, city, ...) are carried through the
pipeline untouched and never inspected, so the record keeps only the fields the
analysis reads; preserving the whole `Sample` value models preserving all
pre-existing columns of a row. -/
structure Sample where
  utc : ℕ
  latitude : Option ℚ
  longitude : Option ℚ
  state : Option String
deriving DecidableEq, Repr

/-- A sample extended with the derived columns added by
`add_distances_and_speeds` (`distance_km`, `time_diff_hours`, `speed_kmh`). -/
structure MetricSample where
  base : Sample
  distance_km : ℚ
  time_diff_hours : ℚ
  speed_kmh : ℚ
deriving DecidableEq, Repr

/-- A metric sample extended with the `is_anomalous` column added by
`add_anomaly_detection`. -/
structure ScoredSample where
  metric : MetricSample
  is_anomalous : Bool
deriving DecidableEq, Repr

/-- State column of a scored sample. -/
def ScoredSample.state (s : ScoredSample) : Option String := s.metric.base.state

/-- Timestamp of a scored sample. -/
def ScoredSample.utc (s : ScoredSample) : ℕ := s.metric.base.utc

/-- Speed column of a scored sample. -/
def ScoredSample.speed_kmh (s : ScoredSample) : ℚ := s.metric.speed_kmh

/-- Distance column of a scored sample. -/
def ScoredSample.distance_km (s : ScoredSample) : ℚ := s.metric.distance_km

/-- Elapsed-time column of a scored sample. -/
def ScoredSample.time_diff_hours (s : ScoredSample) : ℚ := s.metric.time_diff_hours

/-- Analysis configuration, from `src/towerjumps/config.py` with its default
values. -/
structure Config where
  time_window_minutes : ℕ := 15
  max_speed_mph : ℚ := 80
  max_speed_kmh : ℚ := 128
  min_confidence_threshold : ℚ := 1/2
  state_consistency_weight : ℚ := 2/5
  duration_weight : ℚ := 3/10
  record_count_weight : ℚ := 3/10
  min_tower_jump_distance_km : ℚ := 5
  min_time_for_movement_minutes : ℚ := 5
deriving DecidableEq, Repr

/-- Model of `filter_dataframe_with_location` (utils.py): keep rows whose
latitude and longitude are both present and both non-zero. -/
def filter_dataframe_with_location (df : List Sample) : List Sample :=
  df.filter fun s =>
    s.latitude.isSome && s.longitude.isSome &&
      (s.latitude != some 0) && (s.longitude != some 0)

/-- Derived columns for the rows at index 1.. of the sorted dataframe, given
the previous row: distance from the previous row (uninterpreted haversine
`dist`), elapsed hours, and speed guarded by `elapsed > 0`
(`mask = time_diffs[1:] > 0` in utils.py). -/
def compute_metrics (dist : Sample → Sample → ℚ) (prev : Sample) :
    List Sample → List MetricSample
  | [] => []
  | s :: rest =>
    let d := dist prev s
    let td := ((s.utc : ℚ) - (prev.utc : ℚ)) / 3600
    let sp := if 0 < td then d / td else 0
    ⟨s, d, td, sp⟩ :: compute_metrics dist s rest

/-- Ascending timestamp order used by `sort_values("utc_datetime")`.  The
pandas sort is an unstable quicksort, so the order of equal timestamps is
unspecified; any correct sort models it. -/
def utc_le (a b : Sample) : Prop := a.utc ≤ b.utc

instance : DecidableRel utc_le := fun a b => Nat.decLe a.utc b.utc

instance : IsTotal Sample utc_le := ⟨fun a b => Nat.le_total a.utc b.utc⟩

instance : IsTrans Sample utc_le := ⟨fun _ _ _ h h' => Nat.le_trans h h'⟩

/-- Model of `add_distances_and_speeds` (utils.py): sort ascending by UTC
timestamp, give the first row zero distance, elapsed time and speed, and give
every later row the pairwise metrics from its predecessor. -/
def add_distances_and_speeds (dist : Sample → Sample → ℚ) (df : List Sample) :
    List MetricSample :=
  match df.insertionSort utc_le with
  | [] => []
  | s :: rest => ⟨s, 0, 0, 0⟩ :: compute_metrics dist s rest

/-- Model of `add_anomaly_detection` (utils.py): a row is anomalous iff
`speed_kmh > max_speed_kmh` or (`distance_km > min_distance_km` and
`time_diff_hours < 0.1`). -/
def add_anomaly_detection (df : List MetricSample)
    (max_speed_kmh min_distance_km : ℚ) : List ScoredSample :=
  df.map fun m =>
    ⟨m, decide (max_speed_kmh < m.speed_kmh) ||
      (decide (min_distance_km < m.distance_km) &&
        decide (m.time_diff_hours < 1/10))⟩

/-- Start of the calendar-aligned `w`-minute bin holding second `t`
(`pd.Grouper(freq=...)` floors each timestamp onto the grid). -/
def bin_start (w : ℕ) (t : ℕ) : ℕ := t / (w * 60) * (w * 60)

/-- Model of `create_time_windows` (utils.py): the `(bin_start, bin_start + w)`
pairs of the non-empty `w`-minute bins, ascending.  `pd.groupby` with a time
grouper enumerates bins in ascending key order and the source skips the empty
ones, so the bin starts are exactly the distinct floors of the timestamps. -/
def create_time_windows (df : List ScoredSample) (window_minutes : ℕ) :
    List (ℕ × ℕ) :=
  if df.isEmpty then []
  else
    (((df.map fun s => bin_start window_minutes s.utc).dedup).insertionSort
        (· ≤ ·)).map
      fun b => (b, b + window_minutes * 60)

/-- Non-null entries of the state column, in row order
(`df[df["state"].notna()]["state"].tolist()`). -/
def window_states (df : List ScoredSample) : List String :=
  df.filterMap fun s => s.state

/-- First occurrences of each value, in encounter order: the key order of a
Python `Counter` built from the list. -/
def first_occurrences (l : List String) : List String :=
  l.foldl (fun acc a => if a ∈ acc then acc else acc ++ [a]) []

/-- Model of `Counter(l).most_common(1)`: the value with the highest
multiplicity, ties resolved in favour of the first-encountered value, as
`Counter.most_common` does. -/
def most_common (l : List String) : Option String :=
  (first_occurrences l).foldl
    (fun best a =>
      match best with
      | none => some a
      | some b => if l.count b < l.count a then some a else best)
    none

/-- Model of `estimate_most_likely_state` (analyzer.py): the most frequent
non-null state, `"Unknown"` when the window is empty or has no non-null
state. -/
def estimate_most_likely_state (df : List ScoredSample) : String :=
  if df.isEmpty then "Unknown"
  else
    match most_common (window_states df) with
    | none => "Unknown"
    | some s => s

/-- Number of adjacent unequal pairs of a list. -/
def count_changes : List String → ℕ
  | a :: b :: rest => (if a = b then 0 else 1) + count_changes (b :: rest)
  | _ => 0

/-- Model of `count_state_changes` (analyzer.py): adjacent changes among the
non-null states of the window, in row order. -/
def count_state_changes (df : List ScoredSample) : ℕ :=
  if df.isEmpty then 0
  else
    let states := window_states df
    if states.length < 2 then 0 else count_changes states

/-- Model of `detect_tower_jump_pattern` (analyzer.py). -/
def detect_tower_jump_pattern (df : List ScoredSample) (config : Config) :
    Bool :=
  if df.isEmpty || df.length < 2 then false
  else
    let unique_states := (window_states df).toFinset.card
    if 1 < unique_states then
      let high_speed_count :=
        df.countP fun s => decide (config.max_speed_kmh < s.speed_kmh)
      if 0 < high_speed_count then true
      else
        let anomalous_count := df.countP fun s => s.is_anomalous
        if 0 < anomalous_count then true
        else
          let state_changes := count_state_changes df
          if 2 < state_changes then true else false
    else false

/-- Model of `calculate_confidence` (analyzer.py). -/
def calculate_confidence (df : List ScoredSample) (estimated_state : String)
    (config : Config) : ℚ :=
  if df.isEmpty then 0
  else
    let state_records := df.filter fun s => s.state.isSome
    if state_records.isEmpty then 0
    else
      let estimated_state_count :=
        state_records.countP fun s => s.state == some estimated_state
      let state_consistency :=
        (estimated_state_count : ℚ) / (state_records.length : ℚ)
      let record_count_factor := min ((df.length : ℚ) / 10) 1
      let anomaly_count := df.countP fun s => s.is_anomalous
      let anomaly_penalty :=
        max 0 (1 - (anomaly_count : ℚ) / (df.length : ℚ))
      let confidence :=
        config.state_consistency_weight * state_consistency
          + config.record_count_weight * record_count_factor
          + config.duration_weight * anomaly_penalty
      max 0 (min 1 confidence)

/-- Model of the `TimeInterval` dataclass (models.py).  `states_observed` is
built by `list(set(...))` in the source, whose order is unspecified, so it is
modelled as a finite set. -/
structure TimeInterval where
  start_time : ℕ
  end_time : ℕ
  estimated_state : String
  is_tower_jump : Bool
  confidence : ℚ
  record_count : ℕ
  states_observed : Finset String
  max_distance_km : Option ℚ := none
  max_speed_kmh : Option ℚ := none
deriving DecidableEq

/-- Model of `analyze_time_window` (analyzer.py): classify the samples with
`start_time ≤ utc < end_time`. -/
def analyze_time_window (df : List ScoredSample) (start_time end_time : ℕ)
    (config : Config) : TimeInterval :=
  let window_df := df.filter fun s => decide (start_time ≤ s.utc) && decide (s.utc < end_time)
  if window_df.isEmpty then
    ⟨start_time, end_time, "Unknown", false, 0, 0, ∅, none, none⟩
  else
    let unique_states := (window_states window_df).toFinset
    let estimated_state := estimate_most_likely_state window_df
    let is_tower_jump := detect_tower_jump_pattern window_df config
    let confidence := calculate_confidence window_df estimated_state config
    ⟨start_time, end_time, estimated_state, is_tower_jump, confidence,
      window_df.length, unique_states,
      (window_df.map ScoredSample.distance_km).max?,
      (window_df.map ScoredSample.speed_kmh).max?⟩

/-- Model of the summary dictionary built by `generate_analysis_summary`. -/
structure Summary where
  total_intervals : ℕ
  tower_jump_intervals : ℕ
  tower_jump_percentage : ℚ
  most_common_state : String
  average_confidence : ℚ
  states_observed : List String
deriving DecidableEq

/-- Model of `generate_analysis_summary` (analyzer.py); the source returns the
empty dictionary for an empty interval list, modelled as `none`. -/
def generate_analysis_summary (intervals : List TimeInterval) :
    Option Summary :=
  if intervals.isEmpty then none
  else
    let total_intervals := intervals.length
    let tower_jump_intervals := intervals.countP fun i => i.is_tower_jump
    let state_list :=
      (intervals.map fun i => i.estimated_state).filter fun s => s != "Unknown"
    let confidence_scores := intervals.map fun i => i.confidence
    let avg_confidence :=
      if confidence_scores.isEmpty then 0
      else confidence_scores.sum / (confidence_scores.length : ℚ)
    some
      ⟨total_intervals, tower_jump_intervals,
        if 0 < total_intervals then
          (tower_jump_intervals : ℚ) / (total_intervals : ℚ) * 100
        else 0,
        (most_common state_list).getD "Unknown", avg_confidence,
        first_occurrences state_list⟩

/-- Payload value of an event data dictionary. -/
inductive JsonValue
  | s (v : String)
  | n (v : ℕ)
  | q (v : ℚ)
  | b (v : Bool)
deriving DecidableEq

/-- Model of the analysis event variants (events.py): constructor arguments are
the data payload each event class stores.  The wall-clock `timestamp` field is
not modelled. -/
inductive Event
  | data_loading (msg : String) (counts : Option (ℕ × ℕ))
  | processing (msg : String) (step : String) (progress : Option ℚ)
  | window_creation (msg : String) (window_count : ℕ) (window_size_minutes : ℕ)
  | analysis_progress (msg : String) (current_window total_windows : ℕ)
      (progress_percentage : ℚ) (estimated_state : Option String)
      (is_tower_jump : Option Bool)
  | interval_completed (msg : String) (interval_data : List (String × JsonValue))
  | completion (msg : String) (summary : Option Summary)
      (total_intervals tower_jumps : ℕ) (tower_jump_percentage : ℚ)
  | error (msg : String) (error_kind : String) (error_details : Option String)
deriving DecidableEq

/-- Python `round(q, 1)` on an exact value: round half to even at the first
decimal place. -/
def round_half_even (q : ℚ) : ℤ :=
  let f := ⌊q⌋
  let r := q - (f : ℚ)
  if r < 1/2 then f
  else if 1/2 < r then f + 1
  else if f % 2 = 0 then f else f + 1

/-- Round to one decimal place, half to even. -/
def round1 (q : ℚ) : ℚ := (round_half_even (10 * q) : ℚ) / 10

/-- Progress percentage stored by `AnalysisProgressEvent` (events.py). -/
def progress_pct (current total : ℕ) : ℚ :=
  if 0 < total then round1 ((current : ℚ) / (total : ℚ) * 100) else 0

/-- Two-digit decimal rendering. -/
def pad2 (n : ℕ) : String := if n < 10 then "0" ++ toString n else toString n

/-- Model of `strftime("%H:%M")` on a UTC second count. -/
def fmt_hm (t : ℕ) : String := pad2 (t / 3600 % 24) ++ ":" ++ pad2 (t % 3600 / 60)

/-- Data dictionary of an `IntervalCompletedEvent` as built at analyzer.py
lines 174-184: six entries, with the confidence pre-multiplied by 100 and
rounded to one decimal. -/
def interval_payload (window_start window_end : ℕ) (interval : TimeInterval) :
    List (String × JsonValue) :=
  [("start_time", JsonValue.n window_start),
   ("end_time", JsonValue.n window_end),
   ("estimated_state", JsonValue.s interval.estimated_state),
   ("is_tower_jump", JsonValue.b interval.is_tower_jump),
   ("confidence", JsonValue.q (round1 (interval.confidence * 100))),
   ("record_count", JsonValue.n interval.record_count)]

/-- Accumulator of the window loop of `analyze_tower_jumps`: the interval list,
the incremental `tower_jumps_detected` counter, and the events yielded so
far. -/
structure WindowLoopState where
  intervals : List TimeInterval
  jumps : ℕ
  events : List Event
deriving DecidableEq

/-- The per-window `AnalysisProgressEvent` of analyzer.py lines 166-172, for
the 1-based window index `iw.1` and window bounds `iw.2`. -/
def progress_event (df_final : List ScoredSample) (config : Config) (total : ℕ)
    (iw : ℕ × ℕ × ℕ) : Event :=
  let interval := analyze_time_window df_final iw.2.1 iw.2.2 config
  Event.analysis_progress
    ("Analyzed window " ++ toString iw.1 ++ "/" ++ toString total ++ ": "
      ++ interval.estimated_state)
    iw.1 total (progress_pct iw.1 total) (some interval.estimated_state)
    (some interval.is_tower_jump)

/-- The `IntervalCompletedEvent` of analyzer.py lines 174-184. -/
def completed_event (df_final : List ScoredSample) (config : Config)
    (iw : ℕ × ℕ × ℕ) : Event :=
  Event.interval_completed
    ("Completed interval " ++ fmt_hm iw.2.1 ++ " - " ++ fmt_hm iw.2.2)
    (interval_payload iw.2.1 iw.2.2
      (analyze_time_window df_final iw.2.1 iw.2.2 config))

/-- The coarse progress marker of analyzer.py lines 186-191. -/
def coarse_progress_event (total : ℕ) (iw : ℕ × ℕ × ℕ) : Event :=
  Event.analysis_progress
    ("Processing progress: " ++ toString iw.1 ++ "/" ++ toString total
      ++ " windows analyzed")
    iw.1 total (progress_pct iw.1 total) none none

/-- One iteration of the window loop (analyzer.py lines 139-191) for the
1-based window index `iw.1` and window bounds `iw.2`.  The `if interval:`
guard of the source is always taken: `analyze_time_window` returns a dataclass
instance, which is truthy, so the interval is always appended and its two
events always yielded; the coarse marker follows when the index is a multiple
of 100 or one of the five milestone indices. -/
def window_step (df_final : List ScoredSample) (config : Config) (total : ℕ)
    (st : WindowLoopState) (iw : ℕ × ℕ × ℕ) : WindowLoopState :=
  let interval := analyze_time_window df_final iw.2.1 iw.2.2 config
  ⟨st.intervals ++ [interval],
    st.jumps + (if interval.is_tower_jump then 1 else 0),
    st.events ++ [progress_event df_final config total iw,
      completed_event df_final config iw] ++
      (if iw.1 % 100 = 0 ∨
          iw.1 ∈ [1, total / 4, total / 2, total * 3 / 4, total] then
        [coarse_progress_event total iw]
      else [])⟩

/-- The fully scored dataframe (`df_final` in analyzer.py): filtered rows with
distance, speed and anomaly columns. -/
def final_samples (dist : Sample → Sample → ℚ) (df : List Sample)
    (config : Config) : List ScoredSample :=
  add_anomaly_detection
    (add_distances_and_speeds dist (filter_dataframe_with_location df))
    config.max_speed_kmh config.min_tower_jump_distance_km

/-- Body of the `try` block of `analyze_tower_jumps` (analyzer.py): the event
sequence it yields and the interval list it returns when no exception is
raised.  On the no-location short circuit the body yields the error event and
returns the empty list without reaching the later stages. -/
def pipeline_body (dist : Sample → Sample → ℚ) (df : List Sample)
    (config : Config) : List Event × List TimeInterval :=
  let ev1 := Event.data_loading "Starting data filtering..." none
  let location_df := filter_dataframe_with_location df
  if location_df.isEmpty then
    ([ev1,
      Event.error "No records with location data found" "DATA_ERROR"
        (some "All records are missing latitude/longitude coordinates")], [])
  else
    let ev2 :=
      Event.data_loading "Data filtering completed"
        (some (df.length, location_df.length))
    let ev3 := Event.processing "Calculating distances and speeds..."
      "distance_calculation" none
    let ev4 := Event.processing "Distance and speed calculation completed"
      "distance_calculation" (some 100)
    let ev5 := Event.processing "Detecting movement anomalies..."
      "anomaly_detection" none
    let df_final := final_samples dist df config
    let ev6 := Event.processing "Anomaly detection completed"
      "anomaly_detection" (some 100)
    let ev7 := Event.processing "Creating time windows..." "window_creation"
      none
    let windows := create_time_windows df_final config.time_window_minutes
    let ev8 :=
      Event.window_creation
        ("Created " ++ toString windows.length ++ " time windows")
        windows.length config.time_window_minutes
    let total := windows.length
    let loop :=
      (windows.enumFrom 1).foldl (window_step df_final config total) ⟨[], 0, []⟩
    let summary := generate_analysis_summary loop.intervals
    let ev9 :=
      Event.completion "Analysis completed successfully" summary
        loop.intervals.length loop.jumps
        (if 0 < loop.intervals.length then
          (loop.jumps : ℚ) / (loop.intervals.length : ℚ) * 100
        else 0)
    ([ev1, ev2, ev3, ev4, ev5, ev6, ev7, ev8] ++ loop.events ++ [ev9],
      loop.intervals)

/-- An exception: its class name and message. -/
structure Exn where
  name : String
  msg : String
deriving DecidableEq

/-- The error event yielded by the `except` clause of `analyze_tower_jumps`. -/
def error_event_of (e : Exn) : Event :=
  Event.error ("Analysis failed: " ++ e.msg) e.name (some e.msg)

/-- The time windows built inside `analyze_tower_jumps` over the fully scored
dataframe. -/
def pipeline_windows (dist : Sample → Sample → ℚ) (df : List Sample)
    (config : Config) : List (ℕ × ℕ) :=
  create_time_windows (final_samples dist df config) config.time_window_minutes

/-- The final accumulator of the window loop of `analyze_tower_jumps`. -/
def pipeline_loop (dist : Sample → Sample → ℚ) (df : List Sample)
    (config : Config) : WindowLoopState :=
  ((pipeline_windows dist df config).enumFrom 1).foldl
    (window_step (final_samples dist df config) config
      (pipeline_windows dist df config).length)
    ⟨[], 0, []⟩

/-- Model of `analyze_tower_jumps` (analyzer.py), exception semantics
included.  `interrupt = some (k, e)` means exception `e` is raised inside the
`try` block during the computation that follows the `k`-th yielded event: the
events already yielded stand, the `except` clause yields one error event, and
the generator returns the empty list.  `interrupt = none` is the run in which
no exception is raised. -/
def analyze_tower_jumps (dist : Sample → Sample → ℚ) (df : List Sample)
    (config : Config) (interrupt : Option (ℕ × Exn)) :
    List Event × List TimeInterval :=
  match interrupt with
  | none => pipeline_body dist df config
  | some (k, e) =>
    ((pipeline_body dist df config).1.take k ++ [error_event_of e], [])

/-- Clamp to the unit interval. -/
def clamp01 (q : ℚ) : ℚ := max 0 (min 1 q)

/-- Confidence rule as the specification words it (§4.5), for comparison with
`calculate_confidence`: consistency is the fraction of samples whose region
equals the estimated region among the non-null-region samples, the count
factor is `min(sample_count / 10, 1)`, and the anomaly penalty is
`max(0, 1 - anomalous_count / sample_count)`; the weighted sum is clamped. -/
def confidence_spec (df : List ScoredSample) (est : String) (c : Config) : ℚ :=
  let non_null := ((df.filter fun s => s.state.isSome).length : ℚ)
  let matching := ((df.countP fun s => s.state == some est) : ℚ)
  let consistency := matching / non_null
  let count_factor := min ((df.length : ℚ) / 10) 1
  let anomaly_penalty :=
    max 0 (1 - ((df.countP fun s => s.is_anomalous) : ℚ) / (df.length : ℚ))
  clamp01 (c.state_consistency_weight * consistency
    + c.record_count_weight * count_factor
    + c.duration_weight * anomaly_penalty)

/-- Test whether an event is an error event. -/
def is_error_event : Event → Bool
  | Event.error _ _ _ => true
  | _ => false

/-- Test whether an event is a data-loading event. -/
def is_data_loading_event : Event → Bool
  | Event.data_loading _ _ => true
  | _ => false

/-- Test whether an event is an interval-completed event. -/
def is_interval_completed_event : Event → Bool
  | Event.interval_completed _ _ => true
  | _ => false

/-- Concrete distance function for witnesses: constantly 7 km. -/
def dist_const : Sample → Sample → ℚ := fun _ _ => 7

/-- Concrete sample in state NY at second 0. -/
def sample_a : Sample := ⟨0, some 1, some 1, some "NY"⟩

/-- Concrete sample in state CA at second 3600. -/
def sample_b : Sample := ⟨3600, some 1, some 1, some "CA"⟩

/-- Concrete sample with a zero latitude, hence without usable location. -/
def sample_noloc : Sample := ⟨0, some 0, some 1, some "NY"⟩

/-- Concrete two-sample dataframe. -/
def df_ab : List Sample := [sample_a, sample_b]

/-- Concrete dataframe with no usable location. -/
def df_noloc : List Sample := [sample_noloc]

/-- Concrete one-sample dataframe. -/
def df_single : List Sample := [sample_a]

/-- The default configuration. -/
def default_config : Config := {}

/-- Concrete scored sample for witnesses. -/
def scored (t : ℕ) (st : Option String) (d td sp : ℚ) (an : Bool) :
    ScoredSample :=
  ⟨⟨⟨t, some 1, some 1, st⟩, d, td, sp⟩, an⟩

/-- Concrete three-state window for witnesses. -/
def window_nct : List ScoredSample :=
  [scored 0 (some "NY") 0 0 0 false, scored 1 (some "CA") 0 0 0 false,
    scored 2 (some "TX") 0 0 0 false]

/-!
Theorems.
-/

theorem count_changes_short (l : List String) (h : l.length < 2) :
    count_changes l = 0 := by
  cases l with
  | nil => rfl
  | cons a t =>
    cases t with
    | nil => rfl
    | cons b t' =>
      simp at h
      omega

theorem count_changes_eq_countP (l : List String) :
    count_changes l = (l.zip l.tail).countP fun p => p.1 != p.2 := by
  induction l with
  | nil => rfl
  | cons a t ih =>
    cases t with
    | nil => rfl
    | cons b t' =>
      show (if a = b then 0 else 1) + count_changes (b :: t') =
        List.countP _ ((a, b) :: (b :: t').zip t')
      rw [ih, List.countP_cons]
      by_cases h : a = b
      · simp [h]
      · simp [h]
        omega

theorem count_changes_replicate (n : ℕ) (a : String) :
    count_changes (List.replicate n a) = 0 := by
  induction n with
  | zero => rfl
  | succ m ih =>
    cases m with
    | zero => rfl
    | succ k =>
      show (if a = a then 0 else 1) + count_changes (a :: List.replicate k a) = 0
      rw [if_pos rfl, Nat.zero_add]
      exact ih

theorem count_state_changes_eq (df : List ScoredSample) :
    count_state_changes df = count_changes (window_states df) := by
  show (if df.isEmpty then 0
    else if (window_states df).length < 2 then 0
    else count_changes (window_states df)) = count_changes (window_states df)
  split_ifs with h1 h2
  · rw [List.isEmpty_iff.mp h1]
    rfl
  · exact (count_changes_short _ h2).symm
  · rfl

/-- C7: `count_state_changes` equals the number of adjacent unequal pairs
among the window's non-null region values taken in order (null-region samples
are skipped by `window_states`); a repeated single region never counts as a
change, and a window whose non-null regions are three pairwise distinct
consecutive values counts exactly two changes. -/
theorem claim_C7_state_changes (df : List ScoredSample) :
    (count_state_changes df =
      ((window_states df).zip (window_states df).tail).countP fun p => p.1 != p.2)
    ∧ (∀ n a, 1 ≤ n → window_states df = List.replicate n a →
        count_state_changes df = 0)
    ∧ (∀ A B C, A ≠ B → B ≠ C → window_states df = [A, B, C] →
        count_state_changes df = 2) := by
  refine ⟨?_, ?_, ?_⟩
  · rw [count_state_changes_eq, count_changes_eq_countP]
  · intro n a _ h
    rw [count_state_changes_eq, h, count_changes_replicate]
  · intro A B C hab hbc h
    rw [count_state_changes_eq, h]
    show (if A = B then 0 else 1) + ((if B = C then 0 else 1) + 0) = 2
    rw [if_neg hab, if_neg hbc]

theorem claim_C7_state_changes_witness :
    window_states window_nct = ["NY", "CA", "TX"] ∧
      count_state_changes window_nct = 2 :=
  ⟨by decide,
    (claim_C7_state_changes window_nct).2.2 "NY" "CA" "TX" (by decide)
      (by decide) (by decide)⟩

theorem compute_metrics_map_base (dist : Sample → Sample → ℚ) (prev : Sample)
    (l : List Sample) :
    (compute_metrics dist prev l).map (fun m => m.base) = l := by
  induction l generalizing prev with
  | nil => rfl
  | cons s rest ih =>
    show s :: (compute_metrics dist s rest).map (fun m => m.base) = s :: rest
    rw [ih]

theorem add_distances_eq_nil (dist : Sample → Sample → ℚ) (l : List Sample)
    (h : l.insertionSort utc_le = []) :
    add_distances_and_speeds dist l = [] := by
  unfold add_distances_and_speeds
  rw [h]

theorem add_distances_eq_cons (dist : Sample → Sample → ℚ) (l : List Sample)
    (a : Sample) (rest : List Sample) (h : l.insertionSort utc_le = a :: rest) :
    add_distances_and_speeds dist l =
      ⟨a, 0, 0, 0⟩ :: compute_metrics dist a rest := by
  unfold add_distances_and_speeds
  rw [h]

theorem add_distances_map_base (dist : Sample → Sample → ℚ) (df : List Sample) :
    (add_distances_and_speeds dist df).map (fun m => m.base) =
      df.insertionSort utc_le := by
  unfold add_distances_and_speeds
  cases h : df.insertionSort utc_le with
  | nil => rfl
  | cons s rest =>
    show s :: (compute_metrics dist s rest).map (fun m => m.base) = s :: rest
    rw [compute_metrics_map_base]

/-- C9: the distance/speed derivation and the anomaly tagger are
non-destructive: in the embedding both are pure functions, and each returns a
sequence whose underlying samples are exactly the input samples (a permutation
of the input for the derivation, which sorts by timestamp; positionally
identical for the tagger), only extended with the derived fields carried by
the wrapper structures `MetricSample` and `ScoredSample`. -/
theorem claim_C9_functional_purity :
    (∀ (dist : Sample → Sample → ℚ) (df : List Sample),
      ((add_distances_and_speeds dist df).map (fun m => m.base)).Perm df)
    ∧ (∀ (df : List MetricSample) (max_speed_kmh min_distance_km : ℚ),
        (add_anomaly_detection df max_speed_kmh min_distance_km).map
          (fun s => s.metric) = df) := by
  constructor
  · intro dist df
    rw [add_distances_map_base]
    exact List.perm_insertionSort utc_le df
  · intro df maxS minD
    simp only [add_anomaly_detection, List.map_map]
    exact List.map_id' df

/-- C3 counterexample: the claim quantifies over all thresholds, but with the
negative speed threshold `max_speed_kmh = -1` the sample at index 0 of a
derived sequence (speed 0) is marked anomalous, because `0 > -1`. -/
theorem claim_C3_counterexample :
    ((add_anomaly_detection (add_distances_and_speeds dist_const [sample_a])
        (-1) 0).map fun s => s.is_anomalous) = [true] := by
  decide

/-- C3 (amended): a sample is marked anomalous iff its speed exceeds
`max_speed_kmh` or its distance exceeds `min_jump_distance_km` with elapsed
time below 0.1 hours; and, provided both thresholds are nonnegative (as every
real configuration has them), the sample at index 0 of a sequence produced by
the distance/speed derivation is never marked anomalous. -/
theorem claim_C3_anomaly_rule_amended (df : List MetricSample)
    (max_speed_kmh min_distance_km : ℚ) :
    (∀ s ∈ add_anomaly_detection df max_speed_kmh min_distance_km,
      (s.is_anomalous = true ↔
        (max_speed_kmh < s.speed_kmh ∨
          (min_distance_km < s.distance_km ∧ s.time_diff_hours < 1/10))))
    ∧ (0 ≤ max_speed_kmh → 0 ≤ min_distance_km →
        ∀ (dist : Sample → Sample → ℚ) (l : List Sample),
          ∀ s ∈ (add_anomaly_detection (add_distances_and_speeds dist l)
              max_speed_kmh min_distance_km).take 1,
            s.is_anomalous = false) := by
  constructor
  · intro s hs
    rw [add_anomaly_detection, List.mem_map] at hs
    obtain ⟨m, _, rfl⟩ := hs
    simp [ScoredSample.speed_kmh, ScoredSample.distance_km,
      ScoredSample.time_diff_hours]
  · intro h1 h2 dist l s hs
    cases hcase : l.insertionSort utc_le with
    | nil =>
      rw [add_distances_eq_nil dist l hcase] at hs
      simp [add_anomaly_detection] at hs
    | cons a rest =>
      rw [add_distances_eq_cons dist l a rest hcase] at hs
      simp only [add_anomaly_detection, List.map_cons, List.take_succ_cons,
        List.take_zero, List.mem_singleton] at hs
      subst hs
      show (decide (max_speed_kmh < (0 : ℚ)) ||
        (decide (min_distance_km < (0 : ℚ)) && decide ((0 : ℚ) < 1/10))) = false
      rw [decide_eq_false (not_lt.mpr h1), decide_eq_false (not_lt.mpr h2)]
      rfl

theorem insertion_sort_df_ab : df_ab.insertionSort utc_le = [sample_a, sample_b] := by
  decide

theorem eval_add_distances_ab :
    add_distances_and_speeds dist_const df_ab =
      [⟨sample_a, 0, 0, 0⟩, ⟨sample_b, 7, 1, 7⟩] := by
  rw [add_distances_eq_cons dist_const df_ab sample_a [sample_b]
    insertion_sort_df_ab]
  norm_num [compute_metrics, dist_const, sample_a, sample_b]

theorem eval_final_ab :
    add_anomaly_detection (add_distances_and_speeds dist_const df_ab) 128 5 =
      [⟨⟨sample_a, 0, 0, 0⟩, false⟩, ⟨⟨sample_b, 7, 1, 7⟩, false⟩] := by
  rw [eval_add_distances_ab]
  norm_num [add_anomaly_detection]

theorem claim_C3_anomaly_rule_amended_witness :
    ((⟨⟨sample_b, 7, 1, 7⟩, false⟩ : ScoredSample).is_anomalous = true ↔
      ((128 : ℚ) < ScoredSample.speed_kmh ⟨⟨sample_b, 7, 1, 7⟩, false⟩ ∨
        ((5 : ℚ) < ScoredSample.distance_km ⟨⟨sample_b, 7, 1, 7⟩, false⟩ ∧
          ScoredSample.time_diff_hours ⟨⟨sample_b, 7, 1, 7⟩, false⟩ < 1/10)))
    ∧ ScoredSample.is_anomalous ⟨⟨sample_a, 0, 0, 0⟩, false⟩ = false :=
  ⟨(claim_C3_anomaly_rule_amended
      (add_distances_and_speeds dist_const df_ab) 128 5).1
      ⟨⟨sample_b, 7, 1, 7⟩, false⟩ (by rw [eval_final_ab]; simp),
    (claim_C3_anomaly_rule_amended
      (add_distances_and_speeds dist_const df_ab) 128 5).2
      (by norm_num) (by norm_num) dist_const df_ab
      ⟨⟨sample_a, 0, 0, 0⟩, false⟩ (by rw [eval_final_ab]; simp)⟩

theorem countP_state_matching (df : List ScoredSample) (est : String) :
    (df.filter fun s => s.state.isSome).countP (fun s => s.state == some est) =
      df.countP fun s => s.state == some est := by
  rw [List.countP_filter]
  apply List.countP_congr
  intro s _
  cases h : s.state with
  | none => simp [h]
  | some v => simp [h]

/-- C4: for a window with at least one non-null-region sample,
`calculate_confidence` returns the clamped weighted sum of consistency, count
factor and anomaly penalty exactly as the specification words it
(`confidence_spec`); for a window with no non-null-region sample it returns 0;
and the result always lies in [0, 1]. -/
theorem claim_C4_confidence_formula (df : List ScoredSample) (est : String)
    (config : Config) :
    (calculate_confidence df est config =
      if (df.filter fun s => s.state.isSome).isEmpty then 0
      else confidence_spec df est config)
    ∧ 0 ≤ calculate_confidence df est config
    ∧ calculate_confidence df est config ≤ 1 := by
  have hmain : calculate_confidence df est config =
      if (df.filter fun s => s.state.isSome).isEmpty then 0
      else confidence_spec df est config := by
    by_cases h0 : df.isEmpty
    · rw [List.isEmpty_iff.mp h0]
      rfl
    · rw [Bool.not_eq_true] at h0
      by_cases h1 : (df.filter fun s => s.state.isSome).isEmpty
      · rw [if_pos h1]
        simp only [calculate_confidence, h0, Bool.false_eq_true, if_false, h1,
          if_true]
      · rw [if_neg h1]
        rw [Bool.not_eq_true] at h1
        simp only [calculate_confidence, confidence_spec, clamp01, h0, h1,
          Bool.false_eq_true, if_false]
        rw [countP_state_matching]
  refine ⟨hmain, ?_, ?_⟩
  · rw [hmain]
    split_ifs
    · norm_num
    · exact le_max_left 0 _
  · rw [hmain]
    split_ifs
    · norm_num
    · exact max_le zero_le_one (min_le_left 1 _)

/-- C1: `detect_tower_jump_pattern` returns true exactly when the window has
at least 2 samples, more than one distinct non-null region is observed, and at
least one of the three signals fires: a sample's speed exceeds
`max_speed_kmh`, a sample is flagged anomalous, or the count of adjacent
non-null region changes exceeds 2.  In every other case it returns false. -/
theorem claim_C1_detect_tower_jump_iff (df : List ScoredSample)
    (config : Config) :
    detect_tower_jump_pattern df config = true ↔
      (2 ≤ df.length ∧ 1 < (window_states df).toFinset.card ∧
        ((∃ s ∈ df, config.max_speed_kmh < s.speed_kmh) ∨
          (∃ s ∈ df, s.is_anomalous = true) ∨
          2 < count_state_changes df)) := by
  show (if df.isEmpty || decide (df.length < 2) then false
    else if 1 < (window_states df).toFinset.card then
      if 0 < df.countP (fun s => decide (config.max_speed_kmh < s.speed_kmh))
        then true
      else if 0 < df.countP (fun s => s.is_anomalous) then true
      else if 2 < count_state_changes df then true
      else false
    else false) = true ↔ _
  split_ifs with h0 h1 h2 h3 h4
  · refine iff_of_false (by simp) ?_
    simp only [List.isEmpty_iff, Bool.or_eq_true, decide_eq_true_eq] at h0
    rintro ⟨hl, -, -⟩
    rcases h0 with h | h
    · subst h
      simp at hl
    · omega
  · refine iff_of_true rfl ⟨?_, h1, Or.inl ?_⟩
    · simp only [List.isEmpty_iff, Bool.or_eq_true, decide_eq_true_eq,
        not_or] at h0
      omega
    · obtain ⟨s, hs, hd⟩ := List.countP_pos_iff.mp h2
      exact ⟨s, hs, of_decide_eq_true hd⟩
  · refine iff_of_true rfl ⟨?_, h1, Or.inr (Or.inl ?_)⟩
    · simp only [List.isEmpty_iff, Bool.or_eq_true, decide_eq_true_eq,
        not_or] at h0
      omega
    · exact List.countP_pos_iff.mp h3
  · refine iff_of_true rfl ⟨?_, h1, Or.inr (Or.inr h4)⟩
    simp only [List.isEmpty_iff, Bool.or_eq_true, decide_eq_true_eq,
      not_or] at h0
    omega
  · refine iff_of_false (by simp) ?_
    rintro ⟨-, -, hsig⟩
    rcases hsig with ⟨s, hs, hlt⟩ | ⟨s, hs, ha⟩ | hch
    · exact h2 (List.countP_pos_iff.mpr ⟨s, hs, decide_eq_true hlt⟩)
    · exact h3 (List.countP_pos_iff.mpr ⟨s, hs, ha⟩)
    · exact h4 hch
  · refine iff_of_false (by simp) ?_
    rintro ⟨-, hc, -⟩
    exact h1 hc

theorem compute_metrics_speed (dist : Sample → Sample → ℚ) (l : List Sample) :
    ∀ prev, ∀ m ∈ compute_metrics dist prev l,
      m.speed_kmh =
        if 0 < m.time_diff_hours then m.distance_km / m.time_diff_hours
        else 0 := by
  induction l with
  | nil =>
    intro prev m hm
    simp [compute_metrics] at hm
  | cons s rest ih =>
    intro prev m hm
    rcases List.mem_cons.mp hm with h | h
    · subst h
      rfl
    · exact ih s m h

/-- C5: the distance/speed derivation sorts ascending by UTC timestamp, the
sample at index 0 gets distance 0, elapsed 0 and speed 0, and for every later
sample the speed is the distance divided by the elapsed hours when those are
strictly positive and 0 otherwise, so the division is guarded by a positive
elapsed time. -/
theorem claim_C5_derivation_guards (dist : Sample → Sample → ℚ)
    (df : List Sample) :
    ((add_distances_and_speeds dist df).map (fun m => m.base.utc)).Sorted (· ≤ ·)
    ∧ (df ≠ [] → add_distances_and_speeds dist df ≠ [])
    ∧ (∀ m ∈ (add_distances_and_speeds dist df).take 1,
        m.distance_km = 0 ∧ m.time_diff_hours = 0 ∧ m.speed_kmh = 0)
    ∧ (∀ m ∈ (add_distances_and_speeds dist df).drop 1,
        m.speed_kmh =
          if 0 < m.time_diff_hours then m.distance_km / m.time_diff_hours
          else 0) := by
  refine ⟨?_, ?_, ?_, ?_⟩
  · rw [show (fun (m : MetricSample) => m.base.utc) =
      ((fun s : Sample => s.utc) ∘ fun m : MetricSample => m.base) from rfl,
      ← List.map_map, add_distances_map_base]
    exact List.pairwise_map.mpr
      ((List.sorted_insertionSort utc_le df).imp fun h => h)
  · intro hne
    cases hsort : df.insertionSort utc_le with
    | nil =>
      have hp := List.perm_insertionSort utc_le df
      rw [hsort] at hp
      exact absurd hp.symm.eq_nil hne
    | cons a rest =>
      rw [add_distances_eq_cons dist df a rest hsort]
      simp
  · intro m hm
    cases hsort : df.insertionSort utc_le with
    | nil =>
      rw [add_distances_eq_nil dist df hsort] at hm
      simp at hm
    | cons a rest =>
      rw [add_distances_eq_cons dist df a rest hsort] at hm
      rw [List.take_succ_cons, List.take_zero, List.mem_singleton] at hm
      subst hm
      exact ⟨rfl, rfl, rfl⟩
  · intro m hm
    cases hsort : df.insertionSort utc_le with
    | nil =>
      rw [add_distances_eq_nil dist df hsort] at hm
      simp at hm
    | cons a rest =>
      rw [add_distances_eq_cons dist df a rest hsort] at hm
      exact compute_metrics_speed dist rest a m hm

theorem claim_C5_derivation_guards_witness :
    add_distances_and_speeds dist_const df_ab ≠ [] ∧
    ((⟨sample_a, 0, 0, 0⟩ : MetricSample).distance_km = 0 ∧
      (⟨sample_a, 0, 0, 0⟩ : MetricSample).time_diff_hours = 0 ∧
      (⟨sample_a, 0, 0, 0⟩ : MetricSample).speed_kmh = 0) ∧
    MetricSample.speed_kmh ⟨sample_b, 7, 1, 7⟩ =
      (if 0 < MetricSample.time_diff_hours ⟨sample_b, 7, 1, 7⟩ then
        MetricSample.distance_km ⟨sample_b, 7, 1, 7⟩ /
          MetricSample.time_diff_hours ⟨sample_b, 7, 1, 7⟩
      else 0) :=
  ⟨(claim_C5_derivation_guards dist_const df_ab).2.1 (by simp [df_ab]),
    (claim_C5_derivation_guards dist_const df_ab).2.2.1 ⟨sample_a, 0, 0, 0⟩
      (by rw [eval_add_distances_ab]; simp),
    (claim_C5_derivation_guards dist_const df_ab).2.2.2 ⟨sample_b, 7, 1, 7⟩
      (by rw [eval_add_distances_ab]; simp)⟩

/-- C6: `create_time_windows` returns `(bin_start, bin_start + W)` pairs for
exactly the non-empty calendar-aligned W-minute bins of the samples'
timestamps, sorted strictly ascending by bin start (hence no duplicates),
with empty input yielding the empty sequence; and for W ≥ 1 the bin start is
the floor of the timestamp to the W-minute grid. -/
theorem claim_C6_time_windows (df : List ScoredSample) (w : ℕ) :
    (∀ b e, (b, e) ∈ create_time_windows df w ↔
      ((∃ s ∈ df, bin_start w s.utc = b) ∧ e = b + w * 60))
    ∧ (create_time_windows df w).Pairwise (fun p q => p.1 < q.1)
    ∧ create_time_windows [] w = []
    ∧ (1 ≤ w → ∀ t, bin_start w t % (w * 60) = 0 ∧ bin_start w t ≤ t ∧
        t < bin_start w t + w * 60) := by
  refine ⟨?_, ?_, rfl, ?_⟩
  · intro b e
    by_cases hdf : df.isEmpty
    · rw [List.isEmpty_iff.mp hdf]
      simp [create_time_windows]
    · rw [Bool.not_eq_true] at hdf
      simp only [create_time_windows, hdf, Bool.false_eq_true, if_false]
      constructor
      · intro hmem
        obtain ⟨b', hb', heq⟩ := List.mem_map.mp hmem
        have hb'' : b' ∈ df.map fun s => bin_start w s.utc :=
          List.mem_dedup.mp
            ((List.perm_insertionSort (· ≤ ·)
              ((df.map fun s => bin_start w s.utc).dedup)).mem_iff.mp hb')
        obtain ⟨s, hs, hsb⟩ := List.mem_map.mp hb''
        injection heq with heq1 heq2
        subst heq1
        subst heq2
        exact ⟨⟨s, hs, hsb⟩, rfl⟩
      · rintro ⟨⟨s, hs, rfl⟩, rfl⟩
        refine List.mem_map.mpr ⟨bin_start w s.utc, ?_, rfl⟩
        exact (List.perm_insertionSort (· ≤ ·) _).mem_iff.mpr
          (List.mem_dedup.mpr (List.mem_map.mpr ⟨s, hs, rfl⟩))
  · by_cases hdf : df.isEmpty
    · simp [create_time_windows, hdf]
    · rw [Bool.not_eq_true] at hdf
      simp only [create_time_windows, hdf, Bool.false_eq_true, if_false]
      have hsorted := List.sorted_insertionSort (· ≤ ·)
        ((df.map fun s => bin_start w s.utc).dedup)
      have hnodup : (((df.map fun s => bin_start w s.utc).dedup).insertionSort
          (· ≤ ·)).Nodup :=
        (List.perm_insertionSort (· ≤ ·) _).nodup_iff.mpr (List.nodup_dedup _)
      exact List.pairwise_map.mpr (hsorted.lt_of_le hnodup)
  · intro hw t
    have hk : 0 < w * 60 := by omega
    refine ⟨Nat.mul_mod_left _ _, Nat.div_mul_le_self t (w * 60), ?_⟩
    have h1 := Nat.div_add_mod t (w * 60)
    have h2 : t % (w * 60) < w * 60 := Nat.mod_lt _ hk
    calc t = w * 60 * (t / (w * 60)) + t % (w * 60) := h1.symm
    _ < w * 60 * (t / (w * 60)) + w * 60 := by omega
    _ = t / (w * 60) * (w * 60) + w * 60 := by rw [Nat.mul_comm]

theorem claim_C6_time_windows_witness :
    bin_start 15 3700 % (15 * 60) = 0 ∧ bin_start 15 3700 ≤ 3700 ∧
      3700 < bin_start 15 3700 + 15 * 60 :=
  (claim_C6_time_windows [] 15).2.2.2 (by norm_num) 3700

theorem pipeline_body_of_empty (dist : Sample → Sample → ℚ) (df : List Sample)
    (config : Config) (h : (filter_dataframe_with_location df).isEmpty = true) :
    pipeline_body dist df config =
      ([Event.data_loading "Starting data filtering..." none,
        Event.error "No records with location data found" "DATA_ERROR"
          (some "All records are missing latitude/longitude coordinates")],
        []) := by
  unfold pipeline_body
  dsimp only
  rw [h]
  rfl

theorem pipeline_body_of_ne (dist : Sample → Sample → ℚ) (df : List Sample)
    (config : Config)
    (h : (filter_dataframe_with_location df).isEmpty = false) :
    pipeline_body dist df config =
      ([Event.data_loading "Starting data filtering..." none,
        Event.data_loading "Data filtering completed"
          (some (df.length, (filter_dataframe_with_location df).length)),
        Event.processing "Calculating distances and speeds..."
          "distance_calculation" none,
        Event.processing "Distance and speed calculation completed"
          "distance_calculation" (some 100),
        Event.processing "Detecting movement anomalies..." "anomaly_detection"
          none,
        Event.processing "Anomaly detection completed" "anomaly_detection"
          (some 100),
        Event.processing "Creating time windows..." "window_creation" none,
        Event.window_creation
          ("Created " ++ toString (pipeline_windows dist df config).length
            ++ " time windows")
          (pipeline_windows dist df config).length config.time_window_minutes]
        ++ (pipeline_loop dist df config).events
        ++ [Event.completion "Analysis completed successfully"
            (generate_analysis_summary (pipeline_loop dist df config).intervals)
            (pipeline_loop dist df config).intervals.length
            (pipeline_loop dist df config).jumps
            (if 0 < (pipeline_loop dist df config).intervals.length then
              ((pipeline_loop dist df config).jumps : ℚ) /
                ((pipeline_loop dist df config).intervals.length : ℚ) * 100
            else 0)],
        (pipeline_loop dist df config).intervals) := by
  unfold pipeline_body
  dsimp only
  rw [h]
  rfl

theorem window_loop_intervals (dfF : List ScoredSample) (config : Config)
    (total : ℕ) (l : List (ℕ × ℕ × ℕ)) :
    ∀ st : WindowLoopState,
      (l.foldl (window_step dfF config total) st).intervals =
        st.intervals ++
          l.map fun iw => analyze_time_window dfF iw.2.1 iw.2.2 config := by
  induction l with
  | nil =>
    intro st
    simp
  | cons x l ih =>
    intro st
    rw [List.foldl_cons, ih]
    show (st.intervals ++ [analyze_time_window dfF x.2.1 x.2.2 config]) ++ _ =
      st.intervals ++ _
    rw [List.append_assoc]
    rfl

theorem window_loop_jumps (dfF : List ScoredSample) (config : Config)
    (total : ℕ) (l : List (ℕ × ℕ × ℕ)) :
    ∀ st : WindowLoopState,
      (l.foldl (window_step dfF config total) st).jumps =
        st.jumps +
          (l.map fun iw => analyze_time_window dfF iw.2.1 iw.2.2 config).countP
            fun i => i.is_tower_jump := by
  induction l with
  | nil =>
    intro st
    simp
  | cons x l ih =>
    intro st
    rw [List.foldl_cons, ih]
    show st.jumps +
      (if (analyze_time_window dfF x.2.1 x.2.2 config).is_tower_jump then 1
        else 0) + _ = st.jumps + _
    rw [List.map_cons, List.countP_cons]
    omega

theorem window_loop_events_mem (dfF : List ScoredSample) (config : Config)
    (total : ℕ) (l : List (ℕ × ℕ × ℕ)) :
    ∀ (st : WindowLoopState) (e : Event),
      e ∈ (l.foldl (window_step dfF config total) st).events →
        e ∈ st.events
        ∨ (∃ m cw tw pc es j, e = Event.analysis_progress m cw tw pc es j)
        ∨ (∃ iw, iw ∈ l ∧ e = completed_event dfF config iw) := by
  induction l with
  | nil =>
    intro st e he
    exact Or.inl he
  | cons x l ih =>
    intro st e he
    rw [List.foldl_cons] at he
    rcases ih (window_step dfF config total st x) e he with h | h | h
    · have hst : (window_step dfF config total st x).events =
          st.events ++ [progress_event dfF config total x,
            completed_event dfF config x] ++
            (if x.1 % 100 = 0 ∨
                x.1 ∈ [1, total / 4, total / 2, total * 3 / 4, total] then
              [coarse_progress_event total x]
            else []) := rfl
      rw [hst] at h
      simp only [List.mem_append, List.mem_cons, List.not_mem_nil,
        or_false] at h
      rcases h with (h | h | h) | h
      · exact Or.inl h
      · subst h
        exact Or.inr (Or.inl ⟨_, _, _, _, _, _, rfl⟩)
      · subst h
        exact Or.inr (Or.inr ⟨x, List.mem_cons_self x l, rfl⟩)
      · split_ifs at h with hc
        · rcases List.mem_singleton.mp h with rfl
          exact Or.inr (Or.inl ⟨_, _, _, _, _, _, rfl⟩)
        · exact absurd h (List.not_mem_nil e)
    · exact Or.inr (Or.inl h)
    · obtain ⟨iw, hiw, heq⟩ := h
      exact Or.inr (Or.inr ⟨iw, List.mem_cons_of_mem x hiw, heq⟩)

theorem pipeline_body_no_error (dist : Sample → Sample → ℚ) (df : List Sample)
    (config : Config)
    (h : (filter_dataframe_with_location df).isEmpty = false) :
    ∀ e ∈ (pipeline_body dist df config).1, is_error_event e = false := by
  intro e he
  rw [pipeline_body_of_ne dist df config h] at he
  rcases List.mem_append.mp he with h1 | h1
  · rcases List.mem_append.mp h1 with h2 | h2
    · simp only [List.mem_cons, List.not_mem_nil, or_false] at h2
      rcases h2 with rfl | rfl | rfl | rfl | rfl | rfl | rfl | rfl
      all_goals rfl
    · rcases window_loop_events_mem _ config _ _ _ e h2 with h3 | h3 | h3
      · exact absurd h3 (List.not_mem_nil e)
      · obtain ⟨m, cw, tw, pc, es, j, rfl⟩ := h3
        rfl
      · obtain ⟨iw, -, rfl⟩ := h3
        rfl
  · rcases List.mem_singleton.mp h1 with rfl
    rfl

/-- C2: on every error path of `analyze_tower_jumps` — no sample with usable
location after filtering, or an exception raised at any point of the `try`
block before its final event — the generator yields exactly one error event,
that event is the last one, and the returned interval list is empty; in the
no-location case only the initial data-loading event precedes the error event,
so none of the later stages is reached. -/
theorem claim_C2_error_event_contract (dist : Sample → Sample → ℚ)
    (df : List Sample) (config : Config) (interrupt : Option (ℕ × Exn))
    (hk : ∀ k e', interrupt = some (k, e') →
      k < (pipeline_body dist df config).1.length)
    (herr : (filter_dataframe_with_location df).isEmpty = true ∨
      interrupt ≠ none) :
    ((analyze_tower_jumps dist df config interrupt).1.countP is_error_event = 1)
    ∧ ((analyze_tower_jumps dist df config interrupt).1.getLast?.map
        is_error_event = some true)
    ∧ (analyze_tower_jumps dist df config interrupt).2 = []
    ∧ ((filter_dataframe_with_location df).isEmpty = true →
        ∀ e ∈ (analyze_tower_jumps dist df config interrupt).1,
          is_data_loading_event e = true ∨ is_error_event e = true)
    ∧ ((filter_dataframe_with_location df).isEmpty = true → interrupt = none →
        (analyze_tower_jumps dist df config interrupt).1 =
          [Event.data_loading "Starting data filtering..." none,
            Event.error "No records with location data found" "DATA_ERROR"
              (some "All records are missing latitude/longitude coordinates")]) := by
  cases interrupt with
  | none =>
    have hie : (filter_dataframe_with_location df).isEmpty = true := by
      rcases herr with h | h
      · exact h
      · exact absurd rfl h
    have han : analyze_tower_jumps dist df config none =
        pipeline_body dist df config := rfl
    rw [han, pipeline_body_of_empty dist df config hie]
    refine ⟨by rfl, by rfl, rfl, ?_, fun _ _ => rfl⟩
    intro _ e he
    rcases List.mem_cons.mp he with rfl | he
    · exact Or.inl rfl
    rcases List.mem_cons.mp he with rfl | he
    · exact Or.inr rfl
    · exact absurd he (List.not_mem_nil e)
  | some ke =>
    obtain ⟨k, ex⟩ := ke
    have hklen : k < (pipeline_body dist df config).1.length :=
      hk k ex rfl
    have htake : ∀ e ∈ (pipeline_body dist df config).1.take k,
        is_error_event e = false := by
      by_cases hie : (filter_dataframe_with_location df).isEmpty
      · intro e he
        have hk2 : k = 0 ∨ k = 1 := by
          rw [pipeline_body_of_empty dist df config hie] at hklen
          simp at hklen
          omega
        rcases hk2 with rfl | rfl
        · simp at he
        · rw [pipeline_body_of_empty dist df config hie] at he
          simp only [List.take_succ_cons, List.take_zero] at he
          rcases List.mem_singleton.mp he with rfl
          rfl
      · rw [Bool.not_eq_true] at hie
        intro e he
        exact pipeline_body_no_error dist df config hie e
          (List.take_subset k _ he)
    have hsplit : (analyze_tower_jumps dist df config (some (k, ex))).1 =
        (pipeline_body dist df config).1.take k ++ [error_event_of ex] := rfl
    refine ⟨?_, ?_, rfl, ?_, ?_⟩
    · rw [hsplit, List.countP_append]
      have h0 : ((pipeline_body dist df config).1.take k).countP
          is_error_event = 0 :=
        List.countP_eq_zero.mpr fun e he => by rw [htake e he]; simp
      rw [h0]
      rfl
    · rw [hsplit, List.getLast?_concat]
      rfl
    · intro hie e he
      rw [hsplit] at he
      rcases List.mem_append.mp he with he | he
      · have hsub := List.take_subset k (pipeline_body dist df config).1 he
        rw [pipeline_body_of_empty dist df config hie] at hsub
        rcases List.mem_cons.mp hsub with rfl | hsub
        · exact Or.inl rfl
        rcases List.mem_cons.mp hsub with rfl | hsub
        · exact Or.inr rfl
        · exact absurd hsub (List.not_mem_nil e)
      · rcases List.mem_singleton.mp he with rfl
        exact Or.inr rfl
    · intro _ hcontra
      exact absurd hcontra (by simp)

theorem claim_C2_error_event_contract_witness :
    (analyze_tower_jumps dist_const df_noloc default_config none).1.countP
        is_error_event = 1 ∧
      (analyze_tower_jumps dist_const df_noloc default_config none).2 = [] :=
  ⟨(claim_C2_error_event_contract dist_const df_noloc default_config none
      (by intro k e' h; cases h) (Or.inl (by decide))).1,
    (claim_C2_error_event_contract dist_const df_noloc default_config none
      (by intro k e' h; cases h) (Or.inl (by decide))).2.2.1⟩

theorem create_time_windows_ne (df : List ScoredSample) (w : ℕ)
    (h : df ≠ []) : create_time_windows df w ≠ [] := by
  unfold create_time_windows
  rw [List.isEmpty_eq_false.mpr h]
  simp only [Bool.false_eq_true, if_false, ne_eq, List.map_eq_nil_iff]
  intro hc
  have hp := (List.perm_insertionSort (· ≤ ·)
    ((df.map fun s => bin_start w s.utc).dedup)).symm
  rw [hc] at hp
  have hd := hp.eq_nil
  rw [List.dedup_eq_nil, List.map_eq_nil_iff] at hd
  exact h hd

theorem generate_summary_jumps (intervals : List TimeInterval)
    (h : intervals ≠ []) :
    (generate_analysis_summary intervals).map
        (fun s => s.tower_jump_intervals) =
      some (intervals.countP fun i => i.is_tower_jump) := by
  unfold generate_analysis_summary
  dsimp only
  rw [List.isEmpty_eq_false.mpr h]
  rfl

/-- C10: on every successful run the final completion event carries the
incrementally maintained tower-jump counter, and that counter equals the
`tower_jump_intervals` value `generate_analysis_summary` recomputes from the
returned interval list (both equal the count of jump intervals); the event's
`total_intervals` equals the length of the returned interval list. -/
theorem claim_C10_jump_counter_refinement (dist : Sample → Sample → ℚ)
    (df : List Sample) (config : Config)
    (h : (filter_dataframe_with_location df).isEmpty = false) :
    (generate_analysis_summary
        (analyze_tower_jumps dist df config none).2).map
        (fun s => s.tower_jump_intervals) =
      some ((analyze_tower_jumps dist df config none).2.countP
        fun i => i.is_tower_jump)
    ∧ (analyze_tower_jumps dist df config none).1.getLast? =
      some (Event.completion "Analysis completed successfully"
        (generate_analysis_summary (analyze_tower_jumps dist df config none).2)
        (analyze_tower_jumps dist df config none).2.length
        ((analyze_tower_jumps dist df config none).2.countP
          fun i => i.is_tower_jump)
        (if 0 < (analyze_tower_jumps dist df config none).2.length then
          (((analyze_tower_jumps dist df config none).2.countP
            fun i => i.is_tower_jump : ℕ) : ℚ) /
            ((analyze_tower_jumps dist df config none).2.length : ℚ) * 100
        else 0)) := by
  have han : analyze_tower_jumps dist df config none =
      pipeline_body dist df config := rfl
  have hkey : (pipeline_loop dist df config).jumps =
      (pipeline_loop dist df config).intervals.countP
        (fun i => i.is_tower_jump) := by
    unfold pipeline_loop
    rw [window_loop_jumps, window_loop_intervals]
    simp
  have hfilter_ne := List.isEmpty_eq_false.mp h
  have hlen_fin : (final_samples dist df config).length =
      (filter_dataframe_with_location df).length := by
    unfold final_samples add_anomaly_detection
    rw [List.length_map]
    have hb := congrArg List.length
      (add_distances_map_base dist (filter_dataframe_with_location df))
    rw [List.length_map, List.length_insertionSort] at hb
    exact hb
  have hfne : final_samples dist df config ≠ [] := by
    intro hc
    rw [hc] at hlen_fin
    exact hfilter_ne (List.length_eq_zero.mp hlen_fin.symm)
  have hwne : pipeline_windows dist df config ≠ [] :=
    create_time_windows_ne _ _ hfne
  have hlen2 : (pipeline_loop dist df config).intervals.length =
      (pipeline_windows dist df config).length := by
    unfold pipeline_loop
    rw [window_loop_intervals]
    simp
  have hine : (pipeline_loop dist df config).intervals ≠ [] := by
    intro hc
    rw [hc] at hlen2
    exact hwne (List.length_eq_zero.mp hlen2.symm)
  refine ⟨?_, ?_⟩
  · rw [han, pipeline_body_of_ne dist df config h]
    exact generate_summary_jumps _ hine
  · rw [han, pipeline_body_of_ne dist df config h]
    rw [List.getLast?_concat, hkey]

theorem claim_C10_jump_counter_refinement_witness :
    (generate_analysis_summary
        (analyze_tower_jumps dist_const df_ab default_config none).2).map
        (fun s => s.tower_jump_intervals) =
      some ((analyze_tower_jumps dist_const df_ab default_config none).2.countP
        fun i => i.is_tower_jump) :=
  (claim_C10_jump_counter_refinement dist_const df_ab default_config
    (by decide)).1

theorem enumFrom_snd_mem {α : Type} (l : List α) :
    ∀ (n : ℕ) (x : ℕ × α), x ∈ List.enumFrom n l → x.2 ∈ l := by
  induction l with
  | nil =>
    intro n x hx
    exact absurd hx (List.not_mem_nil x)
  | cons a l ih =>
    intro n x hx
    rcases List.mem_cons.mp hx with rfl | hx
    · exact List.mem_cons_self a l
    · exact List.mem_cons_of_mem a (ih (n + 1) x hx)

/-- C8 counterexample: a concrete successful run in which interval_completed
events for non-empty windows exist, yet none of their payloads carries the
"states_observed" field of the interval data model (nor, likewise, the max
distance/speed fields), so the payload does not contain the full set of
ClassifiedInterval fields. -/
theorem claim_C8_counterexample :
    ((analyze_tower_jumps dist_const df_ab default_config none).1.countP
      (fun e => match e with
        | Event.interval_completed _ _ => true
        | _ => false)) = 2
    ∧ ((analyze_tower_jumps dist_const df_ab default_config none).1.countP
      (fun e => match e with
        | Event.interval_completed _ p =>
          (p.map Prod.fst).contains "states_observed"
        | _ => false)) = 0 :=
  ⟨by decide, by decide⟩

/-- C8 (amended): for every non-empty window processed by the pipeline, the
interval_completed event's data payload carries exactly the six fields
start_time, end_time, estimated_state, is_tower_jump, confidence
(pre-multiplied by 100 and rounded to one decimal) and record_count of that
window's classified interval; the set of observed regions and the max
distance/speed are not part of the payload. -/
theorem claim_C8_interval_payload_amended (dist : Sample → Sample → ℚ)
    (df : List Sample) (config : Config) (interrupt : Option (ℕ × Exn)) :
    ∀ m p, Event.interval_completed m p ∈
        (analyze_tower_jumps dist df config interrupt).1 →
      p.map Prod.fst = ["start_time", "end_time", "estimated_state",
        "is_tower_jump", "confidence", "record_count"]
      ∧ ∃ ws we, (ws, we) ∈ pipeline_windows dist df config ∧
          p = interval_payload ws we
            (analyze_time_window (final_samples dist df config) ws we
              config) := by
  intro m p hmem
  have hbody : Event.interval_completed m p ∈ (pipeline_body dist df config).1 := by
    cases interrupt with
    | none => exact hmem
    | some ke =>
      obtain ⟨k, ex⟩ := ke
      have hsplit : (analyze_tower_jumps dist df config (some (k, ex))).1 =
          (pipeline_body dist df config).1.take k ++ [error_event_of ex] := rfl
      rw [hsplit] at hmem
      rcases List.mem_append.mp hmem with h1 | h1
      · exact List.take_subset k _ h1
      · rcases List.mem_singleton.mp h1 with h2
        exact absurd h2 (by simp [error_event_of])
  by_cases hie : (filter_dataframe_with_location df).isEmpty
  · rw [pipeline_body_of_empty dist df config hie] at hbody
    rcases List.mem_cons.mp hbody with h1 | h1
    · exact absurd h1 (by simp)
    rcases List.mem_cons.mp h1 with h2 | h2
    · exact absurd h2 (by simp)
    · exact absurd h2 (List.not_mem_nil _)
  · rw [Bool.not_eq_true] at hie
    rw [pipeline_body_of_ne dist df config hie] at hbody
    rcases List.mem_append.mp hbody with h1 | h1
    · rcases List.mem_append.mp h1 with h2 | h2
      · simp only [List.mem_cons, List.not_mem_nil, or_false] at h2
        rcases h2 with h3 | h3 | h3 | h3 | h3 | h3 | h3 | h3
        all_goals exact absurd h3 (by simp)
      · rcases window_loop_events_mem _ config _ _ _ _ h2 with h3 | h3 | h3
        · exact absurd h3 (List.not_mem_nil _)
        · obtain ⟨m', cw, tw, pc, es, j, heq⟩ := h3
          exact absurd heq (by simp)
        · obtain ⟨iw, hiw, heq⟩ := h3
          rw [completed_event] at heq
          injection heq with heqm heqp
          subst heqp
          refine ⟨rfl, iw.2.1, iw.2.2, ?_, rfl⟩
          have h4 := enumFrom_snd_mem _ 1 iw hiw
          rwa [Prod.mk.eta]
    · rcases List.mem_singleton.mp h1 with h2
      exact absurd h2 (by simp)

theorem claim_C8_interval_payload_amended_witness :
    (interval_payload 0 900
        (analyze_time_window (final_samples dist_const df_single default_config)
          0 900 default_config)).map Prod.fst =
      ["start_time", "end_time", "estimated_state", "is_tower_jump",
        "confidence", "record_count"] :=
  (claim_C8_interval_payload_amended dist_const df_single default_config none
    ("Completed interval " ++ fmt_hm 0 ++ " - " ++ fmt_hm 900)
    (interval_payload 0 900
      (analyze_time_window (final_samples dist_const df_single default_config)
        0 900 default_config))
    (by
      have hw : pipeline_windows dist_const df_single default_config =
          [(0, 900)] := by decide
      have hloop : (pipeline_loop dist_const df_single default_config).events =
          [progress_event (final_samples dist_const df_single default_config)
              default_config 1 (1, 0, 900),
            completed_event (final_samples dist_const df_single default_config)
              default_config (1, 0, 900),
            coarse_progress_event 1 (1, 0, 900)] := by
        unfold pipeline_loop
        rw [hw]
        rfl
      have han : analyze_tower_jumps dist_const df_single default_config none =
          pipeline_body dist_const df_single default_config := rfl
      rw [han, pipeline_body_of_ne dist_const df_single default_config
        (by decide)]
      apply List.mem_append_left
      apply List.mem_append_right
      rw [hloop]
      exact List.mem_cons_of_mem _ (List.mem_cons_self _ _))).1

end TowerJumps
